import Mathlib

/-!
Shallow embedding of `src/controllers/iamauthpolicy_controller.go`
(IAMAuthPolicyController) from aws-application-networking-k8s.

The controller reconciles an IAMAuthPolicy custom resource: it fetches the
record, applies the finalizer gate, routes on `targetRef.kind` to one of four
pipelines (upsert/delete × gateway/route), and on success stamps a resourceId
annotation onto the record and writes it back.

External collaborators (resource store, VPC Lattice client, policy manager)
are modelled as an oracle environment `Env`; every call a pipeline makes is
also recorded in a trace of `Call` values so that call-order properties are
statable.  Go map assignment on a nil map panics; the embedding keeps the
record's annotations as `Option` and models that assignment faithfully with
the `Outcome.panicked` result.
-/

/-- Error values returned by external calls.  `services.IsNotFoundError`
distinguishes the not-found class. -/
inductive Err where
  | notFound (msg : String)
  | other (msg : String)
deriving DecidableEq, Repr

/-- Modelled from the spec: `services.IsNotFoundError` (pkg/aws/services is not
under src/); it recognises exactly the dependency-not-found error class. -/
def IsNotFoundError : Err → Bool
  | .notFound _ => true
  | .other _ => false

/-- `targetRef` of the policy spec: kind and name. -/
structure TargetRef where
  kind : String
  name : String
deriving DecidableEq, Repr

/-- The spec of an IAMAuthPolicy: target reference and opaque policy text. -/
structure PolicySpec where
  targetRef : TargetRef
  policy : String
deriving DecidableEq, Repr

/-- The reconciled IAMAuthPolicy record.  `deletionTimestampIsZero` mirrors
`DeletionTimestamp.IsZero()`; `annotations` is `none` when the Go map is nil. -/
structure IAMAuthPolicy where
  name : String
  ns : String
  spec : PolicySpec
  deletionTimestampIsZero : Bool
  finalizers : List String
  annotations : Option (List (String × String))
deriving DecidableEq, Repr

/-- One recorded external call made by a pipeline.  `putDoc`/`deleteDoc`
record `policyMgr.Put`/`policyMgr.Delete`; the rest are named after the
manager and Lattice-client methods they record. -/
inductive Call where
  | findSn (name : String)
  | findSvc (name : String)
  | enableSn (id : String)
  | disableSn (id : String)
  | enableSvc (id : String)
  | disableSvc (id : String)
  | putDoc (resourceId : String) (policy : String)
  | deleteDoc (resourceId : String)
deriving DecidableEq, Repr

/-- The model-layer policy object handed to `policyMgr.Put`
(`model.IAMAuthPolicy{ResourceId, Policy}`). -/
structure ModelIAMAuthPolicy where
  ResourceId : String
  Policy : String
deriving DecidableEq, Repr

/-- Oracle for the external collaborators: the Lattice lookups return an id
together with an optional error; manager operations return an optional
error (`none` = success). -/
structure Env where
  FindServiceNetworkByK8sName : String → String × Option Err
  FindServiceByK8sName : String → String × Option Err
  EnableSnIAMAuth : String → Option Err
  DisableSnIAMAuth : String → Option Err
  EnableSvcIAMAuth : String → Option Err
  DisableSvcIAMAuth : String → Option Err
  Put : ModelIAMAuthPolicy → Option Err
  Delete : String → Option Err

/-- Modelled from the spec: `utils.LatticeServiceName` (pkg/utils is not under
src/) — the externally-visible service name as a deterministic function of
(targetRef.name, namespace). -/
def LatticeServiceName (name ns : String) : String := name ++ "-" ++ ns

/-- `findSnId`: look up the service network by the targetRef name; on error
return the empty id together with the error. -/
def findSnId (env : Env) (p : IAMAuthPolicy) : List Call × String × Option Err :=
  let tr := p.spec.targetRef
  let r := env.FindServiceNetworkByK8sName tr.name
  match r.2 with
  | some e => ([Call.findSn tr.name], "", some e)
  | none => ([Call.findSn tr.name], r.1, none)

/-- `findSvcId`: look up the Lattice service by the computed service name. -/
def findSvcId (env : Env) (p : IAMAuthPolicy) : List Call × String × Option Err :=
  let tr := p.spec.targetRef
  let svcName := LatticeServiceName tr.name p.ns
  let r := env.FindServiceByK8sName svcName
  match r.2 with
  | some e => ([Call.findSvc svcName], "", some e)
  | none => ([Call.findSvc svcName], r.1, none)

/-- `putPolicy`: build the model policy and call `policyMgr.Put`; the Put
response value is discarded, only the error is kept. -/
def putPolicy (env : Env) (resId policy : String) : List Call × Option Err :=
  let modelPolicy : ModelIAMAuthPolicy := ⟨resId, policy⟩
  ([Call.putDoc modelPolicy.ResourceId modelPolicy.Policy], env.Put modelPolicy)

/-- `deleteGatewayPolicy`: resolve the service network, delete the attached
policy, then disable IAM auth on the network; first error aborts. -/
def deleteGatewayPolicy (env : Env) (p : IAMAuthPolicy) : List Call × String × Option Err :=
  let r1 := findSnId env p
  match r1.2.2 with
  | some e => (r1.1, "", some e)
  | none =>
    let snId := r1.2.1
    match env.Delete snId with
    | some e => (r1.1 ++ [Call.deleteDoc snId], "", some e)
    | none =>
      match env.DisableSnIAMAuth snId with
      | some e => (r1.1 ++ [Call.deleteDoc snId, Call.disableSn snId], "", some e)
      | none => (r1.1 ++ [Call.deleteDoc snId, Call.disableSn snId], snId, none)

/-- `upsertGatewayPolicy`: resolve the service network, enable IAM auth,
then put the policy document; first error aborts. -/
def upsertGatewayPolicy (env : Env) (p : IAMAuthPolicy) : List Call × String × Option Err :=
  let r1 := findSnId env p
  match r1.2.2 with
  | some e => (r1.1, "", some e)
  | none =>
    let snId := r1.2.1
    match env.EnableSnIAMAuth snId with
    | some e => (r1.1 ++ [Call.enableSn snId], "", some e)
    | none =>
      let r2 := putPolicy env snId p.spec.policy
      match r2.2 with
      | some e => (r1.1 ++ [Call.enableSn snId] ++ r2.1, "", some e)
      | none => (r1.1 ++ [Call.enableSn snId] ++ r2.1, snId, none)

/-- `deleteRoutePolicy`: resolve the Lattice service, delete the attached
policy, then disable IAM auth on the service; first error aborts. -/
def deleteRoutePolicy (env : Env) (p : IAMAuthPolicy) : List Call × String × Option Err :=
  let r1 := findSvcId env p
  match r1.2.2 with
  | some e => (r1.1, "", some e)
  | none =>
    let svcId := r1.2.1
    match env.Delete svcId with
    | some e => (r1.1 ++ [Call.deleteDoc svcId], "", some e)
    | none =>
      match env.DisableSvcIAMAuth svcId with
      | some e => (r1.1 ++ [Call.deleteDoc svcId, Call.disableSvc svcId], "", some e)
      | none => (r1.1 ++ [Call.deleteDoc svcId, Call.disableSvc svcId], svcId, none)

/-- `upsertRoutePolicy`: resolve the Lattice service, enable IAM auth, then
put the policy document; first error aborts. -/
def upsertRoutePolicy (env : Env) (p : IAMAuthPolicy) : List Call × String × Option Err :=
  let r1 := findSvcId env p
  match r1.2.2 with
  | some e => (r1.1, "", some e)
  | none =>
    let svcId := r1.2.1
    match env.EnableSvcIAMAuth svcId with
    | some e => (r1.1 ++ [Call.enableSvc svcId], "", some e)
    | none =>
      let r2 := putPolicy env svcId p.spec.policy
      match r2.2 with
      | some e => (r1.1 ++ [Call.enableSvc svcId] ++ r2.1, "", some e)
      | none => (r1.1 ++ [Call.enableSvc svcId] ++ r2.1, svcId, none)

/-- The finalizer string used by the controller. -/
def authPolicyFinalizer : String := "iamauthpolicy.k8s.aws/resources"

/-- Modelled from the spec: framework primitive
`controllerutil.ContainsFinalizer`. -/
def ContainsFinalizer (p : IAMAuthPolicy) (f : String) : Bool :=
  p.finalizers.contains f

/-- Modelled from the spec: framework primitive `controllerutil.AddFinalizer`
(adds the marker when absent). -/
def AddFinalizer (p : IAMAuthPolicy) (f : String) : IAMAuthPolicy :=
  if ContainsFinalizer p f then p else { p with finalizers := p.finalizers ++ [f] }

/-- Modelled from the spec: framework primitive
`controllerutil.RemoveFinalizer` (removes every occurrence of the marker). -/
def RemoveFinalizer (p : IAMAuthPolicy) (f : String) : IAMAuthPolicy :=
  { p with finalizers := p.finalizers.filter (fun g => g ≠ f) }

/-- `handleFinalizer`: add the marker while the record is live, remove it
once deletion is requested; in-memory mutation only. -/
def handleFinalizer (p : IAMAuthPolicy) : IAMAuthPolicy :=
  if p.deletionTimestampIsZero then
    if !ContainsFinalizer p authPolicyFinalizer then
      AddFinalizer p authPolicyFinalizer
    else p
  else
    if ContainsFinalizer p authPolicyFinalizer then
      RemoveFinalizer p authPolicyFinalizer
    else p

/-- `ctrl.Result`, reduced to the requeue delay in seconds
(`time.Hour` = 3600, `time.Second * 30` = 30, zero value = 0). -/
structure CtrlResult where
  requeueAfterSeconds : Nat
deriving DecidableEq, Repr

/-- What `Reconcile` hands back to the framework: a (result, error) pair, or
a Go panic (assignment on a nil annotations map). -/
inductive Outcome where
  | ret (result : CtrlResult) (err : Option Err)
  | panicked
deriving DecidableEq, Repr

/-- The annotation key stamped with the resolved Lattice resource id. -/
def resourceIdAnnKey : String := "application-networking.k8s.aws/resourceId"

/-- Go map assignment `m[k] = v` on a non-nil map: overwrite or append. -/
def mapInsert (m : List (String × String)) (k v : String) : List (String × String) :=
  if m.any (fun kv => kv.1 = k) then
    m.map (fun kv => if kv.1 = k then (k, v) else kv)
  else m ++ [(k, v)]

/-- Lookup in the association-list model of a Go map. -/
def mapLookup (m : List (String × String)) (k : String) : Option String :=
  (m.find? (fun kv => kv.1 = k)).map (fun kv => kv.2)

/-- The `switch kind` of `Reconcile`: the pipeline selected for a
(kind, isDelete) pair, `none` for an unsupported kind. -/
def reconcileFunc (kind : String) (isDelete : Bool) :
    Option (Env → IAMAuthPolicy → List Call × String × Option Err) :=
  match kind with
  | "Gateway" => some (if isDelete then deleteGatewayPolicy else upsertGatewayPolicy)
  | "HTTPRoute" => some (if isDelete then deleteRoutePolicy else upsertRoutePolicy)
  | "GRPCRoute" => some (if isDelete then deleteRoutePolicy else upsertRoutePolicy)
  | _ => none

/-- The full observable result of one `Reconcile` invocation: the returned
outcome, the stored record afterwards (`Update` is the only write, and only
on the success path), and the trace of external calls. -/
structure ReconcileOut where
  outcome : Outcome
  store : Option IAMAuthPolicy
  calls : List Call
deriving DecidableEq, Repr

/-- `Reconcile`: fetch (the `store` argument models what `Get` finds; `none`
is NotFound, ignored), apply the finalizer gate in memory, route by kind,
run the pipeline, map errors to the requeue policy, and on success stamp the
resourceId annotation and `Update` the record (`updateErr` is the store's
answer to that write). -/
def Reconcile (env : Env) (updateErr : Option Err) (store : Option IAMAuthPolicy) :
    ReconcileOut :=
  match store with
  | none => ⟨Outcome.ret ⟨0⟩ none, none, []⟩
  | some orig =>
    let k8sPolicy := handleFinalizer orig
    let isDelete := !k8sPolicy.deletionTimestampIsZero
    let kind := k8sPolicy.spec.targetRef.kind
    match reconcileFunc kind isDelete with
    | none => ⟨Outcome.ret ⟨3600⟩ none, some orig, []⟩
    | some f =>
      let r := f env k8sPolicy
      match r.2.2 with
      | some e =>
        if IsNotFoundError e then ⟨Outcome.ret ⟨30⟩ none, some orig, r.1⟩
        else ⟨Outcome.ret ⟨0⟩ (some e), some orig, r.1⟩
      | none =>
        match k8sPolicy.annotations with
        | none => ⟨Outcome.panicked, some orig, r.1⟩
        | some m =>
          let updated := { k8sPolicy with
            annotations := some (mapInsert m resourceIdAnnKey r.2.1) }
          match updateErr with
          | some e => ⟨Outcome.ret ⟨0⟩ (some e), some orig, r.1⟩
          | none => ⟨Outcome.ret ⟨0⟩ none, some updated, r.1⟩

/-! ### Helper lemmas about the finalizer gate -/

theorem handleFinalizer_spec (p : IAMAuthPolicy) : (handleFinalizer p).spec = p.spec := by
  unfold handleFinalizer AddFinalizer RemoveFinalizer
  repeat' split
  all_goals rfl

theorem handleFinalizer_ns (p : IAMAuthPolicy) : (handleFinalizer p).ns = p.ns := by
  unfold handleFinalizer AddFinalizer RemoveFinalizer
  repeat' split
  all_goals rfl

theorem handleFinalizer_annotations (p : IAMAuthPolicy) :
    (handleFinalizer p).annotations = p.annotations := by
  unfold handleFinalizer AddFinalizer RemoveFinalizer
  repeat' split
  all_goals rfl

theorem handleFinalizer_delTs (p : IAMAuthPolicy) :
    (handleFinalizer p).deletionTimestampIsZero = p.deletionTimestampIsZero := by
  unfold handleFinalizer AddFinalizer RemoveFinalizer
  repeat' split
  all_goals rfl

theorem ContainsFinalizer_AddFinalizer (p : IAMAuthPolicy) (f : String) :
    ContainsFinalizer (AddFinalizer p f) f = true := by
  unfold AddFinalizer
  split
  · assumption
  · simp [ContainsFinalizer]

theorem ContainsFinalizer_RemoveFinalizer (p : IAMAuthPolicy) (f : String) :
    ContainsFinalizer (RemoveFinalizer p f) f = false := by
  simp [RemoveFinalizer, ContainsFinalizer]

theorem handleFinalizer_idem (p : IAMAuthPolicy) :
    handleFinalizer (handleFinalizer p) = handleFinalizer p := by
  unfold handleFinalizer
  by_cases hz : p.deletionTimestampIsZero
  · simp only [hz, if_true]
    by_cases hc : ContainsFinalizer p authPolicyFinalizer
    · simp [hc, hz]
    · simp only [hc, Bool.not_false, if_true]
      have h1 : (AddFinalizer p authPolicyFinalizer).deletionTimestampIsZero = true := by
        simp [AddFinalizer, hc, hz]
      have h2 := ContainsFinalizer_AddFinalizer p authPolicyFinalizer
      simp [h1, h2]
  · simp only [Bool.not_eq_true] at hz
    simp only [hz, Bool.false_eq_true, if_false]
    by_cases hc : ContainsFinalizer p authPolicyFinalizer
    · simp only [hc, if_true]
      have h1 : (RemoveFinalizer p authPolicyFinalizer).deletionTimestampIsZero = false := by
        simp [RemoveFinalizer, hz]
      have h2 := ContainsFinalizer_RemoveFinalizer p authPolicyFinalizer
      simp [h1, h2, hc]
    · simp [hc, hz]

/-- The gate affects neither the outcome nor the calls of a reconcile:
reconciling a record and reconciling its already-gated form route the same
way and return the same thing (only the untouched stored copy differs on
non-success paths). -/
theorem Reconcile_gate_first (env : Env) (updateErr : Option Err) (p : IAMAuthPolicy) :
    (Reconcile env updateErr (some p)).outcome =
      (Reconcile env updateErr (some (handleFinalizer p))).outcome ∧
    (Reconcile env updateErr (some p)).calls =
      (Reconcile env updateErr (some (handleFinalizer p))).calls := by
  constructor
  all_goals
    simp only [Reconcile, handleFinalizer_idem]
    repeat' split
    all_goals rfl

/-- C6: `handleFinalizer` is exactly the two-state gate: on a live record
without the marker it appends the marker; on a deletion-requested record
with the marker it removes it (filters it out); in the two remaining states
it is the identity; it is idempotent; and it is applied before kind-based
routing on every reconcile, so reconciling a record and reconciling its
gated form produce the same outcome and the same external calls. -/
theorem handleFinalizer_two_state_gate (p : IAMAuthPolicy) :
    (p.deletionTimestampIsZero = true → ContainsFinalizer p authPolicyFinalizer = false →
      handleFinalizer p = { p with finalizers := p.finalizers ++ [authPolicyFinalizer] }) ∧
    (p.deletionTimestampIsZero = false → ContainsFinalizer p authPolicyFinalizer = true →
      handleFinalizer p =
        { p with finalizers := p.finalizers.filter (fun g => g ≠ authPolicyFinalizer) }) ∧
    (p.deletionTimestampIsZero = true → ContainsFinalizer p authPolicyFinalizer = true →
      handleFinalizer p = p) ∧
    (p.deletionTimestampIsZero = false → ContainsFinalizer p authPolicyFinalizer = false →
      handleFinalizer p = p) ∧
    handleFinalizer (handleFinalizer p) = handleFinalizer p ∧
    (∀ env updateErr,
      (Reconcile env updateErr (some p)).outcome =
        (Reconcile env updateErr (some (handleFinalizer p))).outcome ∧
      (Reconcile env updateErr (some p)).calls =
        (Reconcile env updateErr (some (handleFinalizer p))).calls) := by
  refine ⟨?_, ?_, ?_, ?_, handleFinalizer_idem p, fun env u => Reconcile_gate_first env u p⟩
  · intro hz hc
    simp [handleFinalizer, AddFinalizer, hz, hc]
  · intro hz hc
    simp [handleFinalizer, RemoveFinalizer, hz, hc]
  · intro hz hc
    simp [handleFinalizer, hz, hc]
  · intro hz hc
    simp [handleFinalizer, hz, hc]

/-- A live policy without the marker, targeting a Gateway. -/
def gwPolicy : IAMAuthPolicy :=
  ⟨"pol1", "default", ⟨⟨"Gateway", "gw1"⟩, "policydoc"⟩, true, [], some []⟩

/-- Witness for C6 at a concrete live record without the marker: the gate
adds the marker. -/
theorem handleFinalizer_two_state_gate_witness :
    gwPolicy.deletionTimestampIsZero = true ∧
    ContainsFinalizer gwPolicy authPolicyFinalizer = false ∧
    handleFinalizer gwPolicy =
      { gwPolicy with finalizers := gwPolicy.finalizers ++ [authPolicyFinalizer] } :=
  ⟨rfl, rfl, (handleFinalizer_two_state_gate gwPolicy).1 rfl rfl⟩

/-! ### C3: unsupported target kind -/

theorem reconcileFunc_eq_none (kind : String) (b : Bool)
    (h1 : kind ≠ "Gateway") (h2 : kind ≠ "HTTPRoute") (h3 : kind ≠ "GRPCRoute") :
    reconcileFunc kind b = none := by
  unfold reconcileFunc
  split <;> simp_all

/-- C3: when the fetched policy's targetRef.kind is outside
{Gateway, HTTPRoute, GRPCRoute}, Reconcile returns a 1-hour (3600 s) requeue
with a nil error, leaves the store untouched, and makes no external call at
all (neither resolver nor Auth State Manager). -/
theorem unsupported_kind_one_hour_requeue (env : Env) (updateErr : Option Err)
    (p : IAMAuthPolicy)
    (h1 : p.spec.targetRef.kind ≠ "Gateway")
    (h2 : p.spec.targetRef.kind ≠ "HTTPRoute")
    (h3 : p.spec.targetRef.kind ≠ "GRPCRoute") :
    Reconcile env updateErr (some p) =
      ⟨Outcome.ret ⟨3600⟩ none, some p, []⟩ := by
  have hn := reconcileFunc_eq_none p.spec.targetRef.kind
    (!(handleFinalizer p).deletionTimestampIsZero) h1 h2 h3
  simp only [Reconcile, handleFinalizer_spec, hn]

/-- An all-success environment used by concrete witnesses. -/
def envOk : Env where
  FindServiceNetworkByK8sName := fun _ => ("sn-123", none)
  FindServiceByK8sName := fun _ => ("svc-456", none)
  EnableSnIAMAuth := fun _ => none
  DisableSnIAMAuth := fun _ => none
  EnableSvcIAMAuth := fun _ => none
  DisableSvcIAMAuth := fun _ => none
  Put := fun _ => none
  Delete := fun _ => none

/-- A live policy targeting the unsupported kind Service. -/
def svcKindPolicy : IAMAuthPolicy :=
  ⟨"pol3", "default", ⟨⟨"Service", "svc1"⟩, "policydoc"⟩, true, [], some []⟩

/-- Witness for C3 at kind = Service. -/
theorem unsupported_kind_one_hour_requeue_witness :
    svcKindPolicy.spec.targetRef.kind = "Service" ∧
    Reconcile envOk none (some svcKindPolicy) =
      ⟨Outcome.ret ⟨3600⟩ none, some svcKindPolicy, []⟩ :=
  ⟨rfl, unsupported_kind_one_hour_requeue envOk none svcKindPolicy
    (by decide) (by decide) (by decide)⟩

/-! ### C4: requeue policy on pipeline errors -/

/-- C4: when the selected pipeline fails, a dependency-not-found error is
mapped to a 30-second requeue with a nil hard error, and every other error
is returned unchanged with the zero result (no requeue delay). -/
theorem pipeline_error_requeue_policy (env : Env) (updateErr : Option Err)
    (p : IAMAuthPolicy)
    (f : Env → IAMAuthPolicy → List Call × String × Option Err) (e : Err)
    (hf : reconcileFunc p.spec.targetRef.kind (!p.deletionTimestampIsZero) = some f)
    (he : (f env (handleFinalizer p)).2.2 = some e) :
    (Reconcile env updateErr (some p)).outcome =
      if IsNotFoundError e then Outcome.ret ⟨30⟩ none
      else Outcome.ret ⟨0⟩ (some e) := by
  simp only [Reconcile, handleFinalizer_spec, handleFinalizer_delTs, hf, he]
  by_cases hnf : IsNotFoundError e <;> simp [hnf]

/-- Environment in which the service-network lookup fails with the
not-found error class. -/
def envSnNotFound : Env :=
  { envOk with FindServiceNetworkByK8sName := fun _ => ("", some (Err.notFound "sn gw1 not found")) }

/-- Witness for C4: a Gateway policy whose resolution hits not-found gets a
30-second requeue and a nil error. -/
theorem pipeline_error_requeue_policy_witness :
    reconcileFunc gwPolicy.spec.targetRef.kind (!gwPolicy.deletionTimestampIsZero) =
      some upsertGatewayPolicy ∧
    (upsertGatewayPolicy envSnNotFound (handleFinalizer gwPolicy)).2.2 =
      some (Err.notFound "sn gw1 not found") ∧
    (Reconcile envSnNotFound none (some gwPolicy)).outcome = Outcome.ret ⟨30⟩ none := by
  refine ⟨rfl, rfl, ?_⟩
  have h := pipeline_error_requeue_policy envSnNotFound none gwPolicy
    upsertGatewayPolicy (Err.notFound "sn gw1 not found") rfl rfl
  simpa using h

/-! ### C9: no Update on non-success outcomes -/

/-- C9: on every non-success outcome — unsupported target kind or a failing
pipeline (whether mapped to the 30-second requeue or surfaced) — `Update` is
never reached, so the stored record is exactly the fetched one; the gate's
in-memory marker mutation is not persisted. -/
theorem non_success_leaves_store_unchanged (env : Env) (updateErr : Option Err)
    (p : IAMAuthPolicy) :
    (reconcileFunc p.spec.targetRef.kind (!p.deletionTimestampIsZero) = none →
      (Reconcile env updateErr (some p)).store = some p) ∧
    (∀ f e, reconcileFunc p.spec.targetRef.kind (!p.deletionTimestampIsZero) = some f →
      (f env (handleFinalizer p)).2.2 = some e →
      (Reconcile env updateErr (some p)).store = some p) := by
  constructor
  · intro hn
    simp only [Reconcile, handleFinalizer_spec, handleFinalizer_delTs, hn]
  · intro f e hf he
    simp only [Reconcile, handleFinalizer_spec, handleFinalizer_delTs, hf, he]
    by_cases hnf : IsNotFoundError e <;> simp [hnf]

/-- A deletion-requested HTTPRoute policy carrying the marker. -/
def routeDelPolicy : IAMAuthPolicy :=
  ⟨"pol9", "default", ⟨⟨"HTTPRoute", "route1"⟩, "policydoc"⟩, false,
    [authPolicyFinalizer], some []⟩

/-- Environment in which the service lookup fails with a throttling-style
(other) error. -/
def envSvcOther : Env :=
  { envOk with FindServiceByK8sName := fun _ => ("", some (Err.other "throttled")) }

/-- Witness for C9: a route delete whose resolution fails leaves the stored
record (marker included) unchanged. -/
theorem non_success_leaves_store_unchanged_witness :
    reconcileFunc routeDelPolicy.spec.targetRef.kind
      (!routeDelPolicy.deletionTimestampIsZero) = some deleteRoutePolicy ∧
    (deleteRoutePolicy envSvcOther (handleFinalizer routeDelPolicy)).2.2 =
      some (Err.other "throttled") ∧
    (Reconcile envSvcOther none (some routeDelPolicy)).store = some routeDelPolicy :=
  ⟨rfl, rfl,
    (non_success_leaves_store_unchanged envSvcOther none routeDelPolicy).2
      deleteRoutePolicy (Err.other "throttled") rfl rfl⟩

/-! ### C1: the marker is released only after successful cleanup -/

theorem reconcileFunc_true_is_delete (kind : String)
    (f : Env → IAMAuthPolicy → List Call × String × Option Err)
    (h : reconcileFunc kind true = some f) :
    f = deleteGatewayPolicy ∨ f = deleteRoutePolicy := by
  unfold reconcileFunc at h
  split at h <;> simp_all

/-- C1: for a deletion-requested policy carrying the cleanup marker, if the
reconcile leaves the store holding a record without the marker, then a
delete pipeline was selected and ran to successful completion and the
reconcile returned the zero result with a nil error; the marker is never
persisted as removed while cleanup has not completed. -/
theorem marker_removal_requires_cleanup (env : Env) (updateErr : Option Err)
    (p q : IAMAuthPolicy)
    (hdel : p.deletionTimestampIsZero = false)
    (hfin : ContainsFinalizer p authPolicyFinalizer = true)
    (hstore : (Reconcile env updateErr (some p)).store = some q)
    (hq : ContainsFinalizer q authPolicyFinalizer = false) :
    ∃ f, reconcileFunc p.spec.targetRef.kind true = some f ∧
      (f = deleteGatewayPolicy ∨ f = deleteRoutePolicy) ∧
      (f env (handleFinalizer p)).2.2 = none ∧
      (Reconcile env updateErr (some p)).outcome = Outcome.ret ⟨0⟩ none := by
  simp only [Reconcile, handleFinalizer_spec, handleFinalizer_delTs, hdel,
    Bool.not_false] at hstore ⊢
  cases hrf : reconcileFunc p.spec.targetRef.kind true with
  | none =>
    simp only [hrf] at hstore
    simp at hstore
    subst hstore
    exact absurd hfin (by simp [hq])
  | some f =>
    simp only [hrf] at hstore ⊢
    cases he : (f env (handleFinalizer p)).2.2 with
    | some e =>
      simp only [he] at hstore
      cases hnf : IsNotFoundError e <;>
        · simp [hnf] at hstore
          subst hstore
          exact absurd hfin (by simp [hq])
    | none =>
      simp only [he] at hstore ⊢
      cases hann : (handleFinalizer p).annotations with
      | none =>
        simp only [hann] at hstore
        simp at hstore
        subst hstore
        exact absurd hfin (by simp [hq])
      | some m =>
        simp only [hann] at hstore ⊢
        cases updateErr with
        | some e =>
          simp at hstore
          subst hstore
          exact absurd hfin (by simp [hq])
        | none =>
          exact ⟨f, by simp, reconcileFunc_true_is_delete _ f hrf, he, rfl⟩

/-- A deletion-requested Gateway policy carrying the marker. -/
def gwDelPolicy : IAMAuthPolicy :=
  ⟨"pol1d", "default", ⟨⟨"Gateway", "gw1"⟩, "policydoc"⟩, false,
    [authPolicyFinalizer], some []⟩

/-- The record the successful delete reconcile writes back for
`gwDelPolicy`: marker gone, resourceId annotation stamped. -/
def gwDelPolicyAfter : IAMAuthPolicy :=
  ⟨"pol1d", "default", ⟨⟨"Gateway", "gw1"⟩, "policydoc"⟩, false, [],
    some [(resourceIdAnnKey, "sn-123")]⟩

/-- Witness for C1 at a concrete deletion-requested Gateway policy. -/
theorem marker_removal_requires_cleanup_witness :
    gwDelPolicy.deletionTimestampIsZero = false ∧
    ContainsFinalizer gwDelPolicy authPolicyFinalizer = true ∧
    (Reconcile envOk none (some gwDelPolicy)).store = some gwDelPolicyAfter ∧
    ContainsFinalizer gwDelPolicyAfter authPolicyFinalizer = false ∧
    (∃ f, reconcileFunc gwDelPolicy.spec.targetRef.kind true = some f ∧
      (f = deleteGatewayPolicy ∨ f = deleteRoutePolicy) ∧
      (f envOk (handleFinalizer gwDelPolicy)).2.2 = none ∧
      (Reconcile envOk none (some gwDelPolicy)).outcome = Outcome.ret ⟨0⟩ none) :=
  ⟨rfl, by decide, by decide, by decide,
    marker_removal_requires_cleanup envOk none gwDelPolicy gwDelPolicyAfter
      rfl (by decide) (by decide) (by decide)⟩

/-! ### C2: success path with a nil annotations map -/

/-- A live Gateway policy already carrying the marker, whose annotations
map is nil (`none`), as `Get` returns for a record created without
annotations. -/
def nilAnnPolicy : IAMAuthPolicy :=
  ⟨"pol2", "default", ⟨⟨"Gateway", "gw1"⟩, "policydoc"⟩, true,
    [authPolicyFinalizer], none⟩

/-- C2: the success path is not total — with a nil annotations map the
pipeline resolves "sn-123" without error, and the subsequent Go map
assignment `k8sPolicy.Annotations[...] = id` is an assignment on a nil map,
which panics; no result is returned and the store is left unchanged. -/
theorem nil_annotations_success_path_panics :
    (upsertGatewayPolicy envOk (handleFinalizer nilAnnPolicy)).2 = ("sn-123", none) ∧
    Reconcile envOk none (some nilAnnPolicy) =
      ⟨Outcome.panicked, some nilAnnPolicy,
        [Call.findSn "gw1", Call.enableSn "sn-123",
         Call.putDoc "sn-123" "policydoc"]⟩ := by
  constructor <;> rfl

/-! ### C7: persisting the resolved resource id -/

/-- A live HTTPRoute policy carrying the marker, with a nil annotations
map. -/
def nilAnnRoutePolicy : IAMAuthPolicy :=
  ⟨"pol7", "ns7", ⟨⟨"HTTPRoute", "r7"⟩, "doc7"⟩, true,
    [authPolicyFinalizer], none⟩

/-- C7 counterexample: the selected pipeline returns a resolved resource id
without error, yet Reconcile neither sets the annotation nor calls Update —
it panics on the nil annotations map and the store is unchanged. -/
theorem success_persists_resource_id_cex :
    (upsertRoutePolicy envOk (handleFinalizer nilAnnRoutePolicy)).2 = ("svc-456", none) ∧
    (Reconcile envOk none (some nilAnnRoutePolicy)).outcome = Outcome.panicked ∧
    (Reconcile envOk none (some nilAnnRoutePolicy)).store = some nilAnnRoutePolicy := by
  refine ⟨rfl, rfl, rfl⟩

theorem mapLookup_mapInsert (m : List (String × String)) (k v : String) :
    mapLookup (mapInsert m k v) k = some v := by
  induction m with
  | nil => simp [mapInsert, mapLookup]
  | cons kv t ih =>
    by_cases hk : kv.1 = k <;>
      by_cases ht : t.any (fun x => x.1 = k) <;>
        simp_all [mapInsert, mapLookup, List.find?]

/-- C7 as amended: provided the record's annotations map is present, a
successful pipeline run makes Reconcile stamp the resourceId annotation with
the resolved id and write the record back via Update; if that write fails,
the error is surfaced unchanged with the zero result and no in-process
retry (the store keeps the fetched record). -/
theorem success_persists_resource_id (env : Env) (updateErr : Option Err)
    (p : IAMAuthPolicy)
    (f : Env → IAMAuthPolicy → List Call × String × Option Err)
    (m : List (String × String))
    (hf : reconcileFunc p.spec.targetRef.kind (!p.deletionTimestampIsZero) = some f)
    (hok : (f env (handleFinalizer p)).2.2 = none)
    (hann : p.annotations = some m) :
    (updateErr = none →
      Reconcile env updateErr (some p) =
        ⟨Outcome.ret ⟨0⟩ none,
          some { handleFinalizer p with
            annotations :=
              some (mapInsert m resourceIdAnnKey (f env (handleFinalizer p)).2.1) },
          (f env (handleFinalizer p)).1⟩ ∧
      mapLookup (mapInsert m resourceIdAnnKey (f env (handleFinalizer p)).2.1)
        resourceIdAnnKey = some (f env (handleFinalizer p)).2.1) ∧
    (∀ e, updateErr = some e →
      Reconcile env updateErr (some p) =
        ⟨Outcome.ret ⟨0⟩ (some e), some p, (f env (handleFinalizer p)).1⟩) := by
  have hga : (handleFinalizer p).annotations = some m := by
    rw [handleFinalizer_annotations, hann]
  constructor
  · intro hu
    subst hu
    refine ⟨?_, mapLookup_mapInsert m resourceIdAnnKey (f env (handleFinalizer p)).2.1⟩
    simp only [Reconcile, handleFinalizer_spec, handleFinalizer_delTs, hf, hok, hga]
  · intro e hu
    subst hu
    simp only [Reconcile, handleFinalizer_spec, handleFinalizer_delTs, hf, hok, hga]

/-- A live GRPCRoute policy with marker and an empty (non-nil) annotations
map. -/
def grpcPolicy : IAMAuthPolicy :=
  ⟨"pol7w", "ns7", ⟨⟨"GRPCRoute", "g7"⟩, "doc7"⟩, true,
    [authPolicyFinalizer], some []⟩

/-- Witness for the amended C7 at a concrete GRPCRoute upsert. -/
theorem success_persists_resource_id_witness :
    reconcileFunc grpcPolicy.spec.targetRef.kind (!grpcPolicy.deletionTimestampIsZero) =
      some upsertRoutePolicy ∧
    (upsertRoutePolicy envOk (handleFinalizer grpcPolicy)).2.2 = none ∧
    grpcPolicy.annotations = some [] ∧
    (Reconcile envOk none (some grpcPolicy) =
        ⟨Outcome.ret ⟨0⟩ none,
          some { handleFinalizer grpcPolicy with
            annotations :=
              some (mapInsert [] resourceIdAnnKey
                (upsertRoutePolicy envOk (handleFinalizer grpcPolicy)).2.1) },
          (upsertRoutePolicy envOk (handleFinalizer grpcPolicy)).1⟩ ∧
      mapLookup (mapInsert [] resourceIdAnnKey
          (upsertRoutePolicy envOk (handleFinalizer grpcPolicy)).2.1)
        resourceIdAnnKey =
        some (upsertRoutePolicy envOk (handleFinalizer grpcPolicy)).2.1) :=
  ⟨rfl, rfl, rfl,
    (success_persists_resource_id envOk none grpcPolicy upsertRoutePolicy []
      rfl rfl rfl).1 rfl⟩

/-! ### C5: detach policy before disabling auth in both delete pipelines -/

/-- C5: in both delete pipelines, whenever disable-auth appears in the call
trace, the trace is exactly resolve, then detach (policy delete), then
disable, on the same resolved id, and the detach call succeeded. -/
theorem detach_precedes_disable :
    (∀ env p id, Call.disableSn id ∈ (deleteGatewayPolicy env p).1 →
      env.Delete id = none ∧
      (deleteGatewayPolicy env p).1 =
        [Call.findSn p.spec.targetRef.name, Call.deleteDoc id, Call.disableSn id]) ∧
    (∀ env p id, Call.disableSvc id ∈ (deleteRoutePolicy env p).1 →
      env.Delete id = none ∧
      (deleteRoutePolicy env p).1 =
        [Call.findSvc (LatticeServiceName p.spec.targetRef.name p.ns),
         Call.deleteDoc id, Call.disableSvc id]) := by
  constructor
  · intro env p id hmem
    cases h1 : (env.FindServiceNetworkByK8sName p.spec.targetRef.name).2 with
    | some e =>
      simp only [deleteGatewayPolicy, findSnId, h1] at hmem
      simp at hmem
    | none =>
      simp only [deleteGatewayPolicy, findSnId, h1] at hmem ⊢
      cases h2 : env.Delete (env.FindServiceNetworkByK8sName p.spec.targetRef.name).1 with
      | some e =>
        simp only [h2] at hmem
        simp at hmem
      | none =>
        simp only [h2] at hmem ⊢
        cases h3 : env.DisableSnIAMAuth
            (env.FindServiceNetworkByK8sName p.spec.targetRef.name).1 with
        | some e =>
          simp only [h3] at hmem ⊢
          simp at hmem
          subst hmem
          exact ⟨h2, rfl⟩
        | none =>
          simp only [h3] at hmem ⊢
          simp at hmem
          subst hmem
          exact ⟨h2, rfl⟩
  · intro env p id hmem
    cases h1 : (env.FindServiceByK8sName (LatticeServiceName p.spec.targetRef.name p.ns)).2 with
    | some e =>
      simp only [deleteRoutePolicy, findSvcId, h1] at hmem
      simp at hmem
    | none =>
      simp only [deleteRoutePolicy, findSvcId, h1] at hmem ⊢
      cases h2 : env.Delete
          (env.FindServiceByK8sName (LatticeServiceName p.spec.targetRef.name p.ns)).1 with
      | some e =>
        simp only [h2] at hmem
        simp at hmem
      | none =>
        simp only [h2] at hmem ⊢
        cases h3 : env.DisableSvcIAMAuth
            (env.FindServiceByK8sName (LatticeServiceName p.spec.targetRef.name p.ns)).1 with
        | some e =>
          simp only [h3] at hmem ⊢
          simp at hmem
          subst hmem
          exact ⟨h2, rfl⟩
        | none =>
          simp only [h3] at hmem ⊢
          simp at hmem
          subst hmem
          exact ⟨h2, rfl⟩

/-- Witness for C5: concrete delete-gateway trace has detach before
disable. -/
theorem detach_precedes_disable_witness :
    Call.disableSn "sn-123" ∈ (deleteGatewayPolicy envOk gwDelPolicy).1 ∧
    (envOk.Delete "sn-123" = none ∧
      (deleteGatewayPolicy envOk gwDelPolicy).1 =
        [Call.findSn "gw1", Call.deleteDoc "sn-123", Call.disableSn "sn-123"]) :=
  ⟨by decide, detach_precedes_disable.1 envOk gwDelPolicy "sn-123" (by decide)⟩

/-! ### C8: a failing step aborts its pipeline -/

/-- C8: in each of the four pipelines, a failing step stops the pipeline:
no later step is invoked, no compensating call is made, and the step's
error is propagated unchanged together with the empty resource id.  Each
conjunct fixes the failing step and states the exact call trace and
result. -/
theorem step_failure_aborts_pipeline (env : Env) (p : IAMAuthPolicy) :
    (∀ e, (env.FindServiceNetworkByK8sName p.spec.targetRef.name).2 = some e →
      upsertGatewayPolicy env p = ([Call.findSn p.spec.targetRef.name], "", some e)) ∧
    (∀ id e, env.FindServiceNetworkByK8sName p.spec.targetRef.name = (id, none) →
      env.EnableSnIAMAuth id = some e →
      upsertGatewayPolicy env p =
        ([Call.findSn p.spec.targetRef.name, Call.enableSn id], "", some e)) ∧
    (∀ id e, env.FindServiceNetworkByK8sName p.spec.targetRef.name = (id, none) →
      env.EnableSnIAMAuth id = none → env.Put ⟨id, p.spec.policy⟩ = some e →
      upsertGatewayPolicy env p =
        ([Call.findSn p.spec.targetRef.name, Call.enableSn id,
          Call.putDoc id p.spec.policy], "", some e)) ∧
    (∀ e, (env.FindServiceNetworkByK8sName p.spec.targetRef.name).2 = some e →
      deleteGatewayPolicy env p = ([Call.findSn p.spec.targetRef.name], "", some e)) ∧
    (∀ id e, env.FindServiceNetworkByK8sName p.spec.targetRef.name = (id, none) →
      env.Delete id = some e →
      deleteGatewayPolicy env p =
        ([Call.findSn p.spec.targetRef.name, Call.deleteDoc id], "", some e)) ∧
    (∀ id e, env.FindServiceNetworkByK8sName p.spec.targetRef.name = (id, none) →
      env.Delete id = none → env.DisableSnIAMAuth id = some e →
      deleteGatewayPolicy env p =
        ([Call.findSn p.spec.targetRef.name, Call.deleteDoc id, Call.disableSn id],
          "", some e)) ∧
    (∀ e, (env.FindServiceByK8sName (LatticeServiceName p.spec.targetRef.name p.ns)).2 =
        some e →
      upsertRoutePolicy env p =
        ([Call.findSvc (LatticeServiceName p.spec.targetRef.name p.ns)], "", some e)) ∧
    (∀ id e, env.FindServiceByK8sName (LatticeServiceName p.spec.targetRef.name p.ns) =
        (id, none) →
      env.EnableSvcIAMAuth id = some e →
      upsertRoutePolicy env p =
        ([Call.findSvc (LatticeServiceName p.spec.targetRef.name p.ns),
          Call.enableSvc id], "", some e)) ∧
    (∀ id e, env.FindServiceByK8sName (LatticeServiceName p.spec.targetRef.name p.ns) =
        (id, none) →
      env.EnableSvcIAMAuth id = none → env.Put ⟨id, p.spec.policy⟩ = some e →
      upsertRoutePolicy env p =
        ([Call.findSvc (LatticeServiceName p.spec.targetRef.name p.ns),
          Call.enableSvc id, Call.putDoc id p.spec.policy], "", some e)) ∧
    (∀ e, (env.FindServiceByK8sName (LatticeServiceName p.spec.targetRef.name p.ns)).2 =
        some e →
      deleteRoutePolicy env p =
        ([Call.findSvc (LatticeServiceName p.spec.targetRef.name p.ns)], "", some e)) ∧
    (∀ id e, env.FindServiceByK8sName (LatticeServiceName p.spec.targetRef.name p.ns) =
        (id, none) →
      env.Delete id = some e →
      deleteRoutePolicy env p =
        ([Call.findSvc (LatticeServiceName p.spec.targetRef.name p.ns),
          Call.deleteDoc id], "", some e)) ∧
    (∀ id e, env.FindServiceByK8sName (LatticeServiceName p.spec.targetRef.name p.ns) =
        (id, none) →
      env.Delete id = none → env.DisableSvcIAMAuth id = some e →
      deleteRoutePolicy env p =
        ([Call.findSvc (LatticeServiceName p.spec.targetRef.name p.ns),
          Call.deleteDoc id, Call.disableSvc id], "", some e)) := by
  refine ⟨?_, ?_, ?_, ?_, ?_, ?_, ?_, ?_, ?_, ?_, ?_, ?_⟩
  · intro e h1
    simp [upsertGatewayPolicy, findSnId, h1]
  · intro id e h1 h2
    simp [upsertGatewayPolicy, findSnId, h1, h2]
  · intro id e h1 h2 h3
    simp [upsertGatewayPolicy, findSnId, putPolicy, h1, h2, h3]
  · intro e h1
    simp [deleteGatewayPolicy, findSnId, h1]
  · intro id e h1 h2
    simp [deleteGatewayPolicy, findSnId, h1, h2]
  · intro id e h1 h2 h3
    simp [deleteGatewayPolicy, findSnId, h1, h2, h3]
  · intro e h1
    simp [upsertRoutePolicy, findSvcId, h1]
  · intro id e h1 h2
    simp [upsertRoutePolicy, findSvcId, h1, h2]
  · intro id e h1 h2 h3
    simp [upsertRoutePolicy, findSvcId, putPolicy, h1, h2, h3]
  · intro e h1
    simp [deleteRoutePolicy, findSvcId, h1]
  · intro id e h1 h2
    simp [deleteRoutePolicy, findSvcId, h1, h2]
  · intro id e h1 h2 h3
    simp [deleteRoutePolicy, findSvcId, h1, h2, h3]

/-- Environment in which enabling auth on the service network fails. -/
def envEnableFail : Env :=
  { envOk with EnableSnIAMAuth := fun _ => some (Err.other "enable failed") }

/-- Witness for C8: a failed enable step stops the gateway upsert after two
calls, with the error unchanged and an empty id. -/
theorem step_failure_aborts_pipeline_witness :
    envEnableFail.FindServiceNetworkByK8sName "gw1" = ("sn-123", none) ∧
    envEnableFail.EnableSnIAMAuth "sn-123" = some (Err.other "enable failed") ∧
    upsertGatewayPolicy envEnableFail gwPolicy =
      ([Call.findSn "gw1", Call.enableSn "sn-123"], "", some (Err.other "enable failed")) :=
  ⟨rfl, rfl,
    (step_failure_aborts_pipeline envEnableFail gwPolicy).2.1 "sn-123"
      (Err.other "enable failed") rfl rfl⟩

/-! ### C10: pipelines are idempotent on observable cloud state -/

/-- Observable auth state of one managed resource: the IAM-auth-mode toggle
and the attached policy document. -/
structure AuthState where
  authEnabled : Bool
  policyDoc : Option String
deriving DecidableEq, Repr

/-- Observable cloud state, per resource id. -/
def CloudState := String → AuthState

/-- Modelled from the spec: the Auth State Manager's operations (the
implementation in pkg/deploy/lattice is not under src/) are overwrite-style
— enable/disable set the auth-mode toggle of the addressed resource,
put/delete overwrite/remove its attached policy document; the resolver
lookups read and change nothing. -/
def applyCall (s : CloudState) : Call → CloudState
  | Call.findSn _ => s
  | Call.findSvc _ => s
  | Call.enableSn id => fun x => if x = id then ⟨true, (s x).policyDoc⟩ else s x
  | Call.disableSn id => fun x => if x = id then ⟨false, (s x).policyDoc⟩ else s x
  | Call.enableSvc id => fun x => if x = id then ⟨true, (s x).policyDoc⟩ else s x
  | Call.disableSvc id => fun x => if x = id then ⟨false, (s x).policyDoc⟩ else s x
  | Call.putDoc id doc => fun x => if x = id then ⟨(s x).authEnabled, some doc⟩ else s x
  | Call.deleteDoc id => fun x => if x = id then ⟨(s x).authEnabled, none⟩ else s x

/-- Run a trace of recorded calls against a cloud state. -/
def runCalls (s : CloudState) : List Call → CloudState
  | [] => s
  | c :: cs => runCalls (applyCall s c) cs

/-- C10: for every supported (kind, direction) pair, running the pipeline's
call trace twice in succession against the overwrite-style cloud model, with
no intervening external state change, leaves the same observable cloud
state as running it once (hypotheses: resolution and each manager operation
succeed, so the trace is the full pipeline). -/
theorem pipelines_idempotent_on_cloud_state (env : Env) (p : IAMAuthPolicy)
    (s : CloudState) :
    (∀ id, env.FindServiceNetworkByK8sName p.spec.targetRef.name = (id, none) →
      env.EnableSnIAMAuth id = none → env.Put ⟨id, p.spec.policy⟩ = none →
      runCalls (runCalls s (upsertGatewayPolicy env p).1) (upsertGatewayPolicy env p).1 =
        runCalls s (upsertGatewayPolicy env p).1) ∧
    (∀ id, env.FindServiceNetworkByK8sName p.spec.targetRef.name = (id, none) →
      env.Delete id = none → env.DisableSnIAMAuth id = none →
      runCalls (runCalls s (deleteGatewayPolicy env p).1) (deleteGatewayPolicy env p).1 =
        runCalls s (deleteGatewayPolicy env p).1) ∧
    (∀ id, env.FindServiceByK8sName (LatticeServiceName p.spec.targetRef.name p.ns) =
        (id, none) →
      env.EnableSvcIAMAuth id = none → env.Put ⟨id, p.spec.policy⟩ = none →
      runCalls (runCalls s (upsertRoutePolicy env p).1) (upsertRoutePolicy env p).1 =
        runCalls s (upsertRoutePolicy env p).1) ∧
    (∀ id, env.FindServiceByK8sName (LatticeServiceName p.spec.targetRef.name p.ns) =
        (id, none) →
      env.Delete id = none → env.DisableSvcIAMAuth id = none →
      runCalls (runCalls s (deleteRoutePolicy env p).1) (deleteRoutePolicy env p).1 =
        runCalls s (deleteRoutePolicy env p).1) := by
  refine ⟨?_, ?_, ?_, ?_⟩
  · intro id h1 h2 h3
    have ht : (upsertGatewayPolicy env p).1 =
        [Call.findSn p.spec.targetRef.name, Call.enableSn id,
         Call.putDoc id p.spec.policy] := by
      simp [upsertGatewayPolicy, findSnId, putPolicy, h1, h2, h3]
    rw [ht]
    funext x
    by_cases hx : x = id <;> simp [runCalls, applyCall, hx]
  · intro id h1 h2 h3
    have ht : (deleteGatewayPolicy env p).1 =
        [Call.findSn p.spec.targetRef.name, Call.deleteDoc id, Call.disableSn id] := by
      simp [deleteGatewayPolicy, findSnId, h1, h2, h3]
    rw [ht]
    funext x
    by_cases hx : x = id <;> simp [runCalls, applyCall, hx]
  · intro id h1 h2 h3
    have ht : (upsertRoutePolicy env p).1 =
        [Call.findSvc (LatticeServiceName p.spec.targetRef.name p.ns),
         Call.enableSvc id, Call.putDoc id p.spec.policy] := by
      simp [upsertRoutePolicy, findSvcId, putPolicy, h1, h2, h3]
    rw [ht]
    funext x
    by_cases hx : x = id <;> simp [runCalls, applyCall, hx]
  · intro id h1 h2 h3
    have ht : (deleteRoutePolicy env p).1 =
        [Call.findSvc (LatticeServiceName p.spec.targetRef.name p.ns),
         Call.deleteDoc id, Call.disableSvc id] := by
      simp [deleteRoutePolicy, findSvcId, h1, h2, h3]
    rw [ht]
    funext x
    by_cases hx : x = id <;> simp [runCalls, applyCall, hx]

/-- The empty cloud: auth disabled and no document everywhere. -/
def cloudEmpty : CloudState := fun _ => ⟨false, none⟩

/-- Witness for C10: the gateway upsert trace, run twice from the empty
cloud, equals one run. -/
theorem pipelines_idempotent_on_cloud_state_witness :
    envOk.FindServiceNetworkByK8sName "gw1" = ("sn-123", none) ∧
    envOk.EnableSnIAMAuth "sn-123" = none ∧
    envOk.Put ⟨"sn-123", "policydoc"⟩ = none ∧
    runCalls (runCalls cloudEmpty (upsertGatewayPolicy envOk gwPolicy).1)
        (upsertGatewayPolicy envOk gwPolicy).1 =
      runCalls cloudEmpty (upsertGatewayPolicy envOk gwPolicy).1 :=
  ⟨rfl, rfl, rfl,
    (pipelines_idempotent_on_cloud_state envOk gwPolicy cloudEmpty).1 "sn-123"
      rfl rfl rfl⟩
